import Mathlib

/-!
Shallow embedding of the performance-management data-access layer
(`PerformanceService` over a relational record store and a remote folder
service).  The store is modelled as a list of rows; every external call
(store read/write, folder create/delete) is parameterised by an explicit
outcome so that the sequencing and partial-failure policy of the service
methods becomes a pure function of those outcomes.  Field mapping follows
the source exactly, including the JavaScript truthiness coercion
`x || undefined` (null and the empty string both map to "absent") and
`x || []` (null maps to the empty list).
-/

/-- A row of the `performances` table, with the store column types
(nullable columns are `Option`). -/
structure Row where
  id : String
  title : String
  description : Option String
  cover_image : Option String
  start_date : Option String
  end_date : Option String
  tagged_users : Option (List String)
  created_by : String
  drive_folder_id : Option String
  created_at : String
  updated_at : String
deriving DecidableEq, Repr

/-- The domain `Performance` record exposed to callers. -/
structure Performance where
  id : String
  title : String
  description : Option String
  coverImage : Option String
  startDate : Option String
  endDate : Option String
  createdAt : String
  updatedAt : String
  createdBy : String
  taggedUsers : List String
  driveFolderId : Option String
deriving DecidableEq, Repr

/-- Input of `createPerformance` (`CreatePerformanceData`). -/
structure CreatePerformanceData where
  title : String
  description : Option String
  coverImage : Option String
  startDate : Option String
  endDate : Option String
  taggedUsers : Option (List String)
  createdBy : String
deriving DecidableEq, Repr

/-- Input of `updatePerformance` (`UpdatePerformanceData extends
Partial CreatePerformanceData`): id plus any subset of the create fields,
including a (never-used) `createdBy`. -/
structure UpdatePerformanceData where
  id : String
  title : Option String
  description : Option String
  coverImage : Option String
  startDate : Option String
  endDate : Option String
  taggedUsers : Option (List String)
  createdBy : Option String
deriving DecidableEq, Repr

/-- JavaScript `x || undefined` on a nullable string column: null and the
empty string (both falsy) map to absent, everything else to itself. -/
def emptyToNone : Option String → Option String
  | none => none
  | some s => if s = "" then none else some s

/-- The snake_case-to-camelCase row mapping used verbatim by
`getPerformances`, `getPerformanceById`, `createPerformance` and
`updatePerformance` (`description: p.description || undefined`, ...,
`taggedUsers: p.tagged_users || []`). -/
def rowToPerformance (r : Row) : Performance :=
  { id := r.id
    title := r.title
    description := emptyToNone r.description
    coverImage := emptyToNone r.cover_image
    startDate := emptyToNone r.start_date
    endDate := emptyToNone r.end_date
    createdAt := r.created_at
    updatedAt := r.updated_at
    createdBy := r.created_by
    taggedUsers := r.tagged_users.getD []
    driveFolderId := emptyToNone r.drive_folder_id }

/-- Outcome of the Folder Service `createPerformanceFolder` call: it may
throw, or return a folder id or null. -/
inductive DriveCreateOutcome where
  | threw
  | returned (folderId : Option String)
deriving DecidableEq, Repr

/-- Outcome of the Folder Service `deleteFolder` call: it may throw, or
return a boolean. -/
inductive DriveDeleteOutcome where
  | threw
  | returned (deleted : Bool)
deriving DecidableEq, Repr

/-- Outcome of the store insert inside `createPerformance`: an error, or
success with the store-assigned `id`, `created_at`, `updated_at`. -/
inductive InsertOutcome where
  | err
  | assigned (id createdAt updatedAt : String)
deriving DecidableEq, Repr

/-- Outcome of the store delete inside `deletePerformance`. -/
inductive DeleteOutcome where
  | err
  | ok
deriving DecidableEq, Repr

/-- An observable call made to the Folder Service. -/
inductive DriveCall where
  | createFolder (name : String)
  | deleteFolder (folderId : String)
deriving DecidableEq, Repr

/-- `getPerformances`: on a store read error, log and return the empty
list; otherwise map every returned row through `rowToPerformance`.
(The `order by created_at desc` clause is executed by the store; no claim
depends on the ordering, so rows are returned in store order.)
Result: the returned performances and the error log lines. -/
def getPerformances (store : List Row) (readFail : Bool) :
    List Performance × List String :=
  if readFail then ([], ["Error fetching performances:"])
  else (store.map rowToPerformance, [])

/-- `getPerformanceById`: select a single row by id; a store error or a
missing row both collapse to `none`. -/
def getPerformanceById (store : List Row) (id : String) (readFail : Bool) :
    Option Performance :=
  if readFail then none
  else
    match store.find? (fun r => r.id == id) with
    | none => none
    | some r => some (rowToPerformance r)

/-- The row built by the `createPerformance` insert: the payload columns
from the input, the drive folder id resolved in step 1, and the
store-assigned id and timestamps. -/
def insertedRow (input : CreatePerformanceData) (dfid : Option String)
    (id createdAt updatedAt : String) : Row :=
  { id := id
    title := input.title
    description := input.description
    cover_image := input.coverImage
    start_date := input.startDate
    end_date := input.endDate
    tagged_users := input.taggedUsers
    created_by := input.createdBy
    drive_folder_id := dfid
    created_at := createdAt
    updated_at := updatedAt }

/-- Result of `createPerformance`: the returned record (or `none`), the
store state afterwards, the Folder Service calls made, and the log lines
produced by the drive step. -/
structure CreateResult where
  result : Option Performance
  store : List Row
  driveCalls : List DriveCall
  logs : List String
deriving DecidableEq, Repr

/-- `createPerformance`: (1) attempt to create a remote folder named after
the title — a thrown error or a null return is caught/accepted and leaves
`driveFolderId = null`; (2) insert the row with the payload plus the
resolved folder id; (3) on insert error return `none` (the folder, if
created, is left in place — no compensating delete); (4) on success return
the mapped inserted row. -/
def createPerformance (store : List Row) (input : CreatePerformanceData)
    (drive : DriveCreateOutcome) (ins : InsertOutcome) : CreateResult :=
  let dfid : Option String :=
    match drive with
    | .threw => none
    | .returned r => r
  let driveLog : List String :=
    match drive with
    | .threw => ["Error creating Google Drive folder for performance:"]
    | .returned none => ["Could not create Google Drive folder for performance. Will continue without folder ID."]
    | .returned (some _) => ["Successfully created performance folder"]
  let calls : List DriveCall := [DriveCall.createFolder input.title]
  match ins with
  | .err =>
      { result := none, store := store, driveCalls := calls, logs := driveLog }
  | .assigned i ca ua =>
      let r := insertedRow input dfid i ca ua
      { result := some (rowToPerformance r), store := store ++ [r],
        driveCalls := calls, logs := driveLog }

/-- The partial update payload built by `updatePerformance`: a column is
present exactly when the corresponding input field is present (`if
(x !== undefined) updateData.col = x`).  `createdBy` and `driveFolderId`
are never copied into it. -/
structure UpdateData where
  title : Option String
  description : Option String
  cover_image : Option String
  start_date : Option String
  end_date : Option String
  tagged_users : Option (List String)
deriving DecidableEq, Repr

/-- Build the update payload from the input (source lines 146-153). -/
def buildUpdateData (input : UpdatePerformanceData) : UpdateData :=
  { title := input.title
    description := input.description
    cover_image := input.coverImage
    start_date := input.startDate
    end_date := input.endDate
    tagged_users := input.taggedUsers }

/-- Store semantics of `update(partialRow) where id = ...` on one row:
every column present in the payload is overwritten, every other column is
kept. -/
def applyUpdate (u : UpdateData) (r : Row) : Row :=
  { r with
    title := u.title.getD r.title
    description := match u.description with | some s => some s | none => r.description
    cover_image := match u.cover_image with | some s => some s | none => r.cover_image
    start_date := match u.start_date with | some s => some s | none => r.start_date
    end_date := match u.end_date with | some s => some s | none => r.end_date
    tagged_users := match u.tagged_users with | some l => some l | none => r.tagged_users }

/-- `updatePerformance`: build the partial payload, update the row matching
the input id, and return the mapped updated row; a store error or a
missing target row both return `none` (and leave the store unchanged). -/
def updatePerformance (store : List Row) (storeFail : Bool)
    (input : UpdatePerformanceData) : Option Performance × List Row :=
  if storeFail then (none, store)
  else
    let u := buildUpdateData input
    match store.find? (fun r => r.id == input.id) with
    | none => (none, store)
    | some r =>
        (some (rowToPerformance (applyUpdate u r)),
         store.map (fun s => if s.id == input.id then applyUpdate u s else s))

/-- Result of `deletePerformance`: the boolean outcome, the store state
afterwards, the Folder Service calls made, and the log lines produced by
the drive step. -/
structure DeleteResult where
  ok : Bool
  store : List Row
  driveCalls : List DriveCall
  logs : List String
deriving DecidableEq, Repr

/-- `deletePerformance`: (1) look up the record (a failed or empty lookup
gives no folder id); (2) if a `driveFolderId` is present, call the Folder
Service `deleteFolder` — every outcome (true, false, thrown) is only
logged; (3) delete the row by id — an error returns false, success returns
true. -/
def deletePerformance (store : List Row) (id : String) (lookupFail : Bool)
    (driveOutcome : DriveDeleteOutcome) (del : DeleteOutcome) : DeleteResult :=
  let perf : Option Performance := getPerformanceById store id lookupFail
  let folderId : Option String := perf.bind (fun p => p.driveFolderId)
  let calls : List DriveCall :=
    match folderId with
    | some fid => [DriveCall.deleteFolder fid]
    | none => []
  let driveLog : List String :=
    match folderId with
    | none => []
    | some _ =>
        match driveOutcome with
        | .returned true => ["Successfully deleted Google Drive folder for performance"]
        | .returned false => ["Failed to delete Google Drive folder for performance"]
        | .threw => ["Error deleting Google Drive folder for performance"]
  match del with
  | .err =>
      { ok := false, store := store, driveCalls := calls, logs := driveLog }
  | .ok =>
      { ok := true, store := store.filter (fun r => r.id != id),
        driveCalls := calls, logs := driveLog }

/-- Claim C1: during `createPerformance`, a Folder Service failure (thrown
error or null folder id) never propagates and never changes the store
outcome: the result and the resulting store state are exactly those of a
run with `driveFolderId = null`; the insert still happens, the operation
returns `none` only when the insert fails, and on insert success it
returns a valid record whose `driveFolderId` is absent. -/
theorem createPerformance_folder_failure_nonfatal
    (store : List Row) (input : CreatePerformanceData) (ins : InsertOutcome)
    (drive : DriveCreateOutcome)
    (h : drive = DriveCreateOutcome.threw ∨ drive = DriveCreateOutcome.returned none) :
    (createPerformance store input drive ins).result
        = (createPerformance store input (DriveCreateOutcome.returned none) ins).result
    ∧ (createPerformance store input drive ins).store
        = (createPerformance store input (DriveCreateOutcome.returned none) ins).store
    ∧ (ins = InsertOutcome.err → (createPerformance store input drive ins).result = none)
    ∧ (∀ i ca ua, ins = InsertOutcome.assigned i ca ua →
        (createPerformance store input drive ins).result
          = some (rowToPerformance (insertedRow input none i ca ua))
        ∧ ∀ p, (createPerformance store input drive ins).result = some p →
            p.driveFolderId = none) := by
  rcases h with h | h <;> subst h <;> cases ins <;>
    simp [createPerformance, rowToPerformance, insertedRow, emptyToNone]

/-- Witness for C1 at a concrete input: a thrown folder creation gives the
same result as a null folder id. -/
theorem createPerformance_folder_failure_nonfatal_witness :
    (createPerformance []
        { title := "t", description := none, coverImage := none, startDate := none,
          endDate := none, taggedUsers := none, createdBy := "u" }
        DriveCreateOutcome.threw (InsertOutcome.assigned "i1" "c1" "u1")).result
      = (createPerformance []
        { title := "t", description := none, coverImage := none, startDate := none,
          endDate := none, taggedUsers := none, createdBy := "u" }
        (DriveCreateOutcome.returned none) (InsertOutcome.assigned "i1" "c1" "u1")).result :=
  (createPerformance_folder_failure_nonfatal []
    { title := "t", description := none, coverImage := none, startDate := none,
      endDate := none, taggedUsers := none, createdBy := "u" }
    (InsertOutcome.assigned "i1" "c1" "u1") DriveCreateOutcome.threw (Or.inl rfl)).1

/-- Claim C3: if the store insert fails, `createPerformance` returns
`none`, the store is unchanged, and the only Folder Service call made is
the initial `createFolder` — in particular no compensating `deleteFolder`
call is made, so a folder created in step 1 is left in place. -/
theorem createPerformance_insert_failure_no_rollback
    (store : List Row) (input : CreatePerformanceData) (drive : DriveCreateOutcome) :
    (createPerformance store input drive InsertOutcome.err).result = none
    ∧ (createPerformance store input drive InsertOutcome.err).store = store
    ∧ (createPerformance store input drive InsertOutcome.err).driveCalls
        = [DriveCall.createFolder input.title]
    ∧ ∀ fid, DriveCall.deleteFolder fid ∉
        (createPerformance store input drive InsertOutcome.err).driveCalls := by
  simp [createPerformance]

/-- Claim C8: if the store read underlying `getPerformances` fails, the
operation returns the empty sequence (it is a total function, so no
exception crosses the boundary) and the failure is reported on the log. -/
theorem getPerformances_read_failure_empty (store : List Row) :
    (getPerformances store true).1 = [] ∧ (getPerformances store true).2 ≠ [] := by
  simp [getPerformances]

/-- A concrete row used to instantiate witness theorems. -/
def sampleRow : Row :=
  { id := "r1"
    title := "Winter Concert"
    description := none
    cover_image := none
    start_date := none
    end_date := none
    tagged_users := none
    created_by := "u1"
    drive_folder_id := some "f1"
    created_at := "2024-01-01"
    updated_at := "2024-01-02" }

/-- Claim C2: during `deletePerformance` on a record that has a
`driveFolderId`, the Folder Service `deleteFolder` call is made, and its
outcome (true, false, or thrown) neither changes the resulting store state
nor the boolean result: the operation returns true exactly when the store
delete succeeds, and on success the row is removed. -/
theorem deletePerformance_folder_failure_nonfatal
    (store : List Row) (id : String) (d1 d2 : DriveDeleteOutcome)
    (del : DeleteOutcome) (r : Row) (fid : String)
    (hr : store.find? (fun s => s.id == id) = some r)
    (hf : (rowToPerformance r).driveFolderId = some fid) :
    ((deletePerformance store id false d1 del).ok = true ↔ del = DeleteOutcome.ok)
    ∧ (deletePerformance store id false d1 del).store
        = (deletePerformance store id false d2 del).store
    ∧ (deletePerformance store id false d1 del).driveCalls
        = [DriveCall.deleteFolder fid]
    ∧ (del = DeleteOutcome.ok →
        (deletePerformance store id false d1 del).store
          = store.filter (fun s => s.id != id)) := by
  cases del <;> simp [deletePerformance, getPerformanceById, hr, hf]

/-- Witness for C2 at a concrete store: a thrown `deleteFolder` call still
lets the store delete succeed and return true. -/
theorem deletePerformance_folder_failure_nonfatal_witness :
    (deletePerformance [sampleRow] "r1" false DriveDeleteOutcome.threw
        DeleteOutcome.ok).ok = true := by
  exact (deletePerformance_folder_failure_nonfatal [sampleRow] "r1"
    DriveDeleteOutcome.threw DriveDeleteOutcome.threw DeleteOutcome.ok
    sampleRow "f1" rfl rfl).1.mpr rfl

/-- Claim C4: in `deletePerformance`, when the initial lookup fails or
finds no record, no Folder Service call is made, and the store delete is
still attempted: true and row removal on store success, false and an
unchanged store on store error. -/
theorem deletePerformance_lookup_absent_skips_folder
    (store : List Row) (id : String) (lookupFail : Bool)
    (d : DriveDeleteOutcome) (del : DeleteOutcome)
    (h : getPerformanceById store id lookupFail = none) :
    (deletePerformance store id lookupFail d del).driveCalls = []
    ∧ ((deletePerformance store id lookupFail d del).ok = true
        ↔ del = DeleteOutcome.ok)
    ∧ (del = DeleteOutcome.ok →
        (deletePerformance store id lookupFail d del).store
          = store.filter (fun s => s.id != id))
    ∧ (del = DeleteOutcome.err →
        (deletePerformance store id lookupFail d del).store = store) := by
  cases del <;> simp [deletePerformance, h]

/-- Witness for C4: a failed lookup on a non-empty store still deletes the
row. -/
theorem deletePerformance_lookup_absent_skips_folder_witness :
    (deletePerformance [sampleRow] "r1" true DriveDeleteOutcome.threw
        DeleteOutcome.ok).driveCalls = [] := by
  exact (deletePerformance_lookup_absent_skips_folder [sampleRow] "r1" true
    DriveDeleteOutcome.threw DeleteOutcome.ok rfl).1

/-- Counterexample to claim C5 as stated: on an empty store (so the id
matches no record) with a healthy store connection, `deletePerformance`
returns true, not false — the store delete call matching zero rows is not
an error. -/
theorem deletePerformance_missing_id_counterexample :
    ¬ ((deletePerformance [] "missing-id" false
        (DriveDeleteOutcome.returned true) DeleteOutcome.ok).ok = false) := by
  decide

/-- Claim C5 amended: for every id that matches no record, the operation
does not throw (it is total), makes no Folder Service call, leaves the
store unchanged, and returns true exactly when the store delete call
itself succeeds — false only on a store error, never because the row was
missing. -/
theorem deletePerformance_missing_id
    (store : List Row) (id : String) (lookupFail : Bool)
    (d : DriveDeleteOutcome) (del : DeleteOutcome)
    (h : store.find? (fun r => r.id == id) = none) :
    ((deletePerformance store id lookupFail d del).ok = true
        ↔ del = DeleteOutcome.ok)
    ∧ (deletePerformance store id lookupFail d del).store = store
    ∧ (deletePerformance store id lookupFail d del).driveCalls = [] := by
  have hfilter : store.filter (fun r => r.id != id) = store := by
    rw [List.filter_eq_self]
    intro a ha
    have := List.find?_eq_none.mp h a ha
    simpa [bne] using this
  have hlook : getPerformanceById store id lookupFail = none := by
    cases lookupFail <;> simp [getPerformanceById, h]
  cases del <;> simp [deletePerformance, hlook, hfilter]

/-- Witness for the amended C5: deleting a missing id from the sample
store succeeds with the store unchanged. -/
theorem deletePerformance_missing_id_witness :
    (deletePerformance [sampleRow] "absent" false DriveDeleteOutcome.threw
        DeleteOutcome.ok).store = [sampleRow] := by
  exact (deletePerformance_missing_id [sampleRow] "absent" false
    DriveDeleteOutcome.threw DeleteOutcome.ok (by decide)).2.1

/-- The update payload never contains the `created_by` column. -/
theorem applyUpdate_created_by (u : UpdateData) (r : Row) :
    (applyUpdate u r).created_by = r.created_by := rfl

/-- The update payload never contains the `drive_folder_id` column. -/
theorem applyUpdate_drive_folder_id (u : UpdateData) (r : Row) :
    (applyUpdate u r).drive_folder_id = r.drive_folder_id := rfl

/-- A concrete update input used to instantiate witness theorems: it
carries a `createdBy` value, which the operation must ignore. -/
def sampleUpdateInput : UpdatePerformanceData :=
  { id := "r1"
    title := some "New Title"
    description := none
    coverImage := none
    startDate := none
    endDate := none
    taggedUsers := none
    createdBy := some "intruder" }

/-- Claim C6: `updatePerformance` is a partial update.  On a store error
or a missing target row it returns `none` and leaves the store unchanged.
On success it returns the mapped updated target row, whose `id`,
`created_at`, `updated_at`, `created_by` and `drive_folder_id` columns are
untouched, whose omitted input fields are left unchanged, and whose
present input fields take exactly the input values; the store holds the
same updated row. -/
theorem updatePerformance_partial_update
    (store : List Row) (storeFail : Bool) (input : UpdatePerformanceData) :
    (storeFail = true → updatePerformance store storeFail input = (none, store))
    ∧ (store.find? (fun r => r.id == input.id) = none →
        updatePerformance store storeFail input = (none, store))
    ∧ (∀ r, storeFail = false →
        store.find? (fun s => s.id == input.id) = some r →
        (updatePerformance store storeFail input).1
            = some (rowToPerformance (applyUpdate (buildUpdateData input) r))
        ∧ (updatePerformance store storeFail input).2
            = store.map (fun s =>
                if s.id == input.id then applyUpdate (buildUpdateData input) s else s)
        ∧ (applyUpdate (buildUpdateData input) r).drive_folder_id = r.drive_folder_id
        ∧ (applyUpdate (buildUpdateData input) r).created_by = r.created_by
        ∧ (applyUpdate (buildUpdateData input) r).id = r.id
        ∧ (applyUpdate (buildUpdateData input) r).created_at = r.created_at
        ∧ (applyUpdate (buildUpdateData input) r).updated_at = r.updated_at
        ∧ (input.title = none → (applyUpdate (buildUpdateData input) r).title = r.title)
        ∧ (∀ v, input.title = some v → (applyUpdate (buildUpdateData input) r).title = v)
        ∧ (input.description = none →
            (applyUpdate (buildUpdateData input) r).description = r.description)
        ∧ (∀ v, input.description = some v →
            (applyUpdate (buildUpdateData input) r).description = some v)
        ∧ (input.coverImage = none →
            (applyUpdate (buildUpdateData input) r).cover_image = r.cover_image)
        ∧ (∀ v, input.coverImage = some v →
            (applyUpdate (buildUpdateData input) r).cover_image = some v)
        ∧ (input.startDate = none →
            (applyUpdate (buildUpdateData input) r).start_date = r.start_date)
        ∧ (∀ v, input.startDate = some v →
            (applyUpdate (buildUpdateData input) r).start_date = some v)
        ∧ (input.endDate = none →
            (applyUpdate (buildUpdateData input) r).end_date = r.end_date)
        ∧ (∀ v, input.endDate = some v →
            (applyUpdate (buildUpdateData input) r).end_date = some v)
        ∧ (input.taggedUsers = none →
            (applyUpdate (buildUpdateData input) r).tagged_users = r.tagged_users)
        ∧ (∀ v, input.taggedUsers = some v →
            (applyUpdate (buildUpdateData input) r).tagged_users = some v)) := by
  refine ⟨?_, ?_, ?_⟩
  · intro h
    subst h
    simp [updatePerformance]
  · intro h
    cases storeFail
    · simp [updatePerformance, h]
    · simp [updatePerformance]
  · intro r hsf hr
    subst hsf
    refine ⟨by simp [updatePerformance, hr], by simp [updatePerformance, hr],
      rfl, rfl, rfl, rfl, rfl, ?_, ?_, ?_, ?_, ?_, ?_, ?_, ?_, ?_, ?_, ?_, ?_⟩ <;>
      (intros; simp [applyUpdate, buildUpdateData, *])

/-- Witness for C6: updating the sample row with only a new title returns
the mapped updated row. -/
theorem updatePerformance_partial_update_witness :
    (updatePerformance [sampleRow] false sampleUpdateInput).1
      = some (rowToPerformance
          (applyUpdate (buildUpdateData sampleUpdateInput) sampleRow)) := by
  exact ((updatePerformance_partial_update [sampleRow] false
    sampleUpdateInput).2.2 sampleRow rfl rfl).1

/-- Claim C9: `createdBy` is immutable under `updatePerformance`: even
when the input carries a `createdBy` value, the `created_by` column of
every stored row is unchanged, and a returned record carries the target
row's original `created_by`. -/
theorem updatePerformance_createdBy_immutable
    (store : List Row) (storeFail : Bool) (input : UpdatePerformanceData)
    (v : String) (h : input.createdBy = some v) :
    ((updatePerformance store storeFail input).2).map (fun r => r.created_by)
        = store.map (fun r => r.created_by)
    ∧ (∀ p, (updatePerformance store storeFail input).1 = some p →
        ∃ r, store.find? (fun s => s.id == input.id) = some r
          ∧ p.createdBy = r.created_by) := by
  constructor
  · cases storeFail
    · cases hfind : store.find? (fun s => s.id == input.id) with
      | none => simp [updatePerformance, hfind]
      | some r =>
          simp only [updatePerformance, Bool.false_eq_true, if_false, hfind,
            List.map_map]
          refine List.map_congr_left ?_
          intro s _
          by_cases hs : s.id == input.id <;>
            simp [hs, Function.comp, applyUpdate_created_by]
    · simp [updatePerformance]
  · intro p hp
    cases storeFail
    · cases hfind : store.find? (fun s => s.id == input.id) with
      | none => simp [updatePerformance, hfind] at hp
      | some r =>
          refine ⟨r, rfl, ?_⟩
          simp [updatePerformance, hfind] at hp
          subst hp
          simp [rowToPerformance, applyUpdate_created_by]
    · simp [updatePerformance] at hp

/-- Witness for C9: an update carrying `createdBy = "intruder"` leaves the
stored `created_by` column equal to the original. -/
theorem updatePerformance_createdBy_immutable_witness :
    ((updatePerformance [sampleRow] false sampleUpdateInput).2).map
        (fun r => r.created_by)
      = [sampleRow].map (fun r => r.created_by) := by
  exact (updatePerformance_createdBy_immutable [sampleRow] false
    sampleUpdateInput "intruder" rfl).1

/-- Counterexample to claim C7 as stated: the valid create input with
`description = ""` produces, after a successful insert, a record whose
`description` is absent, not the input's empty string — the `|| undefined`
coercion collapses the empty string to "not set". -/
theorem createPerformance_empty_description_counterexample :
    ((createPerformance []
        { title := "t", description := some "", coverImage := none,
          startDate := none, endDate := none, taggedUsers := none,
          createdBy := "u" }
        (DriveCreateOutcome.returned none)
        (InsertOutcome.assigned "i1" "c1" "u1")).result.map
          (fun p => p.description) = some none)
    ∧ (createPerformance []
        { title := "t", description := some "", coverImage := none,
          startDate := none, endDate := none, taggedUsers := none,
          createdBy := "u" }
        (DriveCreateOutcome.returned none)
        (InsertOutcome.assigned "i1" "c1" "u1")).result.map
          (fun p => p.description) ≠ some (some "") := by
  constructor
  · rfl
  · decide

/-- Claim C7 amended: for every create input whose optional string fields
are not the empty string, if the insert succeeds the returned record's
`title`, `description`, `coverImage`, `startDate`, `endDate` equal the
input fields, `taggedUsers` equals the input list (empty when absent), and
`id`, `createdAt`, `updatedAt` are the store-assigned values. -/
theorem createPerformance_success_returns_input_fields
    (store : List Row) (input : CreatePerformanceData)
    (drive : DriveCreateOutcome) (i ca ua : String)
    (hd : input.description ≠ some "") (hc : input.coverImage ≠ some "")
    (hs : input.startDate ≠ some "") (he : input.endDate ≠ some "") :
    ∃ p, (createPerformance store input drive
            (InsertOutcome.assigned i ca ua)).result = some p
      ∧ p.title = input.title
      ∧ p.description = input.description
      ∧ p.coverImage = input.coverImage
      ∧ p.startDate = input.startDate
      ∧ p.endDate = input.endDate
      ∧ p.taggedUsers = input.taggedUsers.getD []
      ∧ p.id = i ∧ p.createdAt = ca ∧ p.updatedAt = ua := by
  have key : ∀ (o : Option String), o ≠ some "" → emptyToNone o = o := by
    intro o ho
    cases o with
    | none => rfl
    | some s =>
        simp only [emptyToNone, ite_eq_right_iff]
        intro hs'
        exact absurd (by rw [hs']) ho
  cases drive <;>
    exact ⟨_, rfl, rfl, key _ hd, key _ hc, key _ hs, key _ he, rfl, rfl, rfl, rfl⟩

/-- Witness for the amended C7 at a concrete input. -/
theorem createPerformance_success_returns_input_fields_witness :
    ∃ p, (createPerformance []
        { title := "Winter Concert", description := some "d", coverImage := none,
          startDate := none, endDate := none, taggedUsers := some ["a", "b"],
          createdBy := "u1" }
        (DriveCreateOutcome.returned (some "fld_1"))
        (InsertOutcome.assigned "i1" "c1" "u1")).result = some p
      ∧ p.title = "Winter Concert"
      ∧ p.description = some "d"
      ∧ p.coverImage = none
      ∧ p.startDate = none
      ∧ p.endDate = none
      ∧ p.taggedUsers = ["a", "b"]
      ∧ p.id = "i1" ∧ p.createdAt = "c1" ∧ p.updatedAt = "u1" := by
  exact createPerformance_success_returns_input_fields []
    { title := "Winter Concert", description := some "d", coverImage := none,
      startDate := none, endDate := none, taggedUsers := some ["a", "b"],
      createdBy := "u1" }
    (DriveCreateOutcome.returned (some "fld_1")) "i1" "c1" "u1"
    (by decide) (by decide) (by decide) (by decide)

/-- A concrete row whose nullable string columns all hold the empty
string, used to instantiate witness theorems. -/
def emptyStringRow : Row :=
  { id := "r2"
    title := "T"
    description := some ""
    cover_image := some ""
    start_date := some ""
    end_date := some ""
    tagged_users := none
    created_by := "u1"
    drive_folder_id := some ""
    created_at := "c"
    updated_at := "d" }

/-- Claim C10: every record any operation returns factors through the one
row mapping `rowToPerformance`, and under that mapping an empty-string
store value for `description`, `coverImage`, `startDate`, `endDate` or
`driveFolderId` is exposed as absent, exactly like a null one (so callers
cannot tell them apart), while a null `tagged_users` column is exposed as
the empty list. -/
theorem rowMapping_empty_string_is_absent :
    (∀ r : Row, (r.description = some "" ∨ r.description = none) →
        (rowToPerformance r).description = none)
    ∧ (∀ r : Row, (r.cover_image = some "" ∨ r.cover_image = none) →
        (rowToPerformance r).coverImage = none)
    ∧ (∀ r : Row, (r.start_date = some "" ∨ r.start_date = none) →
        (rowToPerformance r).startDate = none)
    ∧ (∀ r : Row, (r.end_date = some "" ∨ r.end_date = none) →
        (rowToPerformance r).endDate = none)
    ∧ (∀ r : Row, (r.drive_folder_id = some "" ∨ r.drive_folder_id = none) →
        (rowToPerformance r).driveFolderId = none)
    ∧ (∀ r : Row, r.tagged_users = none → (rowToPerformance r).taggedUsers = [])
    ∧ (∀ store : List Row,
        (getPerformances store false).1 = store.map rowToPerformance)
    ∧ (∀ (store : List Row) (id : String) (r : Row),
        store.find? (fun s => s.id == id) = some r →
        getPerformanceById store id false = some (rowToPerformance r))
    ∧ (∀ (store : List Row) (input : CreatePerformanceData)
        (drive : DriveCreateOutcome) (i ca ua : String), ∃ r : Row,
        (createPerformance store input drive
            (InsertOutcome.assigned i ca ua)).result = some (rowToPerformance r))
    ∧ (∀ (store : List Row) (input : UpdatePerformanceData) (r : Row),
        store.find? (fun s => s.id == input.id) = some r →
        (updatePerformance store false input).1
          = some (rowToPerformance (applyUpdate (buildUpdateData input) r))) := by
  refine ⟨?_, ?_, ?_, ?_, ?_, ?_, ?_, ?_, ?_, ?_⟩
  · intro r h
    rcases h with h | h <;> simp [rowToPerformance, emptyToNone, h]
  · intro r h
    rcases h with h | h <;> simp [rowToPerformance, emptyToNone, h]
  · intro r h
    rcases h with h | h <;> simp [rowToPerformance, emptyToNone, h]
  · intro r h
    rcases h with h | h <;> simp [rowToPerformance, emptyToNone, h]
  · intro r h
    rcases h with h | h <;> simp [rowToPerformance, emptyToNone, h]
  · intro r h
    simp [rowToPerformance, h]
  · intro store
    simp [getPerformances]
  · intro store id r h
    simp [getPerformanceById, h]
  · intro store input drive i ca ua
    cases drive <;> exact ⟨_, rfl⟩
  · intro store input r h
    simp [updatePerformance, h]

/-- Witness for C10 at a concrete row whose nullable columns all hold the
empty string. -/
theorem rowMapping_empty_string_is_absent_witness :
    (rowToPerformance emptyStringRow).description = none
    ∧ (rowToPerformance emptyStringRow).coverImage = none
    ∧ (rowToPerformance emptyStringRow).startDate = none
    ∧ (rowToPerformance emptyStringRow).endDate = none
    ∧ (rowToPerformance emptyStringRow).driveFolderId = none
    ∧ (rowToPerformance emptyStringRow).taggedUsers = []
    ∧ getPerformanceById [emptyStringRow] "r2" false
        = some (rowToPerformance emptyStringRow) := by
  refine ⟨rowMapping_empty_string_is_absent.1 emptyStringRow (Or.inl rfl),
    rowMapping_empty_string_is_absent.2.1 emptyStringRow (Or.inl rfl),
    rowMapping_empty_string_is_absent.2.2.1 emptyStringRow (Or.inl rfl),
    rowMapping_empty_string_is_absent.2.2.2.1 emptyStringRow (Or.inl rfl),
    rowMapping_empty_string_is_absent.2.2.2.2.1 emptyStringRow (Or.inl rfl),
    rowMapping_empty_string_is_absent.2.2.2.2.2.1 emptyStringRow rfl,
    rowMapping_empty_string_is_absent.2.2.2.2.2.2.2.1 [emptyStringRow] "r2"
      emptyStringRow (by decide)⟩
